import Mathlib

/-!
Verification of the Customer Aggregation, Filtering & Caching Engine of the
CEO-Outreach-Tool repository.

The repository ships the React frontend (`frontend/src/App.js`,
`frontend/src/components/CustomerList.js`, `frontend/src/services/api.js`,
…); the Flask backend (`backend/app.py`), which implements the aggregation,
filter-engine, sorter and cache-layer core, is referenced by the README and
the frontend but its source is not part of the tree.  Definitions below are
therefore of two kinds: shallow embeddings translated directly from the
frontend JavaScript, and definitions whose doc comment starts with
`Modelled from the spec:` for the missing backend components.
-/

/-- JavaScript-style value as it appears in the filter objects the frontend
passes around: `undefined`, a string, a number, or a boolean. -/
inductive JsValue where
  | undefined : JsValue
  | str (s : String) : JsValue
  | num (n : Int) : JsValue
  | bool (b : Bool) : JsValue
deriving DecidableEq

/-- JavaScript truthiness, as used by the `if (filters.x)` guards in
`api.js` and `App.js`: `undefined` and `''` and `0` and `false` are falsy. -/
def JsValue.truthy : JsValue → Bool
  | .undefined => false
  | .str s => !(s == "")
  | .num n => !(n == 0)
  | .bool b => b

/-- Stringification performed by `URLSearchParams.append` on the value. -/
def JsValue.asParam : JsValue → String
  | .undefined => "undefined"
  | .str s => s
  | .num n => toString n
  | .bool b => if b then "true" else "false"

/-- The filter object accepted by `getCustomers` in
`frontend/src/services/api.js` (the fields that `App.loadData` can place in
it, including the two winback fields added at the end of `loadData`). -/
structure ApiFilters where
  search : JsValue
  min_orders : JsValue
  max_orders : JsValue
  min_spent : JsValue
  max_spent : JsValue
  days_since_order : JsValue
  purchased_gift_card : JsValue
  sort_by : JsValue
  sort_order : JsValue
  refresh : JsValue
  winback : JsValue
  winback_days : JsValue
deriving DecidableEq

/-- One `if (filters.x) params.append(key, filters.x)` line of
`api.js getCustomers`. -/
def appendIf (key : String) (v : JsValue) : List (String × String) :=
  if v.truthy then [(key, v.asParam)] else []

/-- The query-string parameter list built by `getCustomers`
(`frontend/src/services/api.js`, lines 5-17): ten fixed keys, each appended
only when the corresponding filter field is truthy.  The `winback` and
`winback_days` fields of the filter object are never consulted. -/
def getCustomersParams (f : ApiFilters) : List (String × String) :=
  appendIf "search" f.search ++
  appendIf "min_orders" f.min_orders ++
  appendIf "max_orders" f.max_orders ++
  appendIf "min_spent" f.min_spent ++
  appendIf "max_spent" f.max_spent ++
  appendIf "days_since_order" f.days_since_order ++
  appendIf "purchased_gift_card" f.purchased_gift_card ++
  appendIf "sort_by" f.sort_by ++
  appendIf "sort_order" f.sort_order ++
  appendIf "refresh" f.refresh

/-- The UI filter state kept by `App.js` (`useState` initialisation at the
top of the component). -/
structure UiFilters where
  orderCount : JsValue
  maxOrders : JsValue
  lastOrderDays : JsValue
  minSpent : JsValue
  maxSpent : JsValue
  search : JsValue
  winback : JsValue
  winbackDays : JsValue
  purchasedGiftCard : JsValue
deriving DecidableEq

/-- JavaScript `x || undefined` as used in `App.loadData`. -/
def orUndef (v : JsValue) : JsValue :=
  if v.truthy then v else .undefined

/-- The `apiFilters` object built by `App.loadData`
(`frontend/src/App.js`, lines 52-68), including the two trailing lines that
conditionally set `winback` and `winback_days`. -/
def loadDataApiFilters (filters : UiFilters) (sortBy sortOrder : String)
    (forceRefresh : Bool) : ApiFilters where
  search := orUndef filters.search
  min_orders := orUndef filters.orderCount
  max_orders := orUndef filters.maxOrders
  min_spent := orUndef filters.minSpent
  max_spent := orUndef filters.maxSpent
  days_since_order := orUndef filters.lastOrderDays
  purchased_gift_card := orUndef filters.purchasedGiftCard
  sort_by := .str sortBy
  sort_order := .str sortOrder
  refresh := .str (if forceRefresh then "true" else "false")
  winback := if filters.winback.truthy then .str "true" else .undefined
  winback_days := if filters.winbackDays.truthy then filters.winbackDays else .undefined

lemma mem_appendIf_keys {x key : String} {v : JsValue}
    (h : x ∈ (appendIf key v).map Prod.fst) : x = key := by
  unfold appendIf at h
  by_cases hv : v.truthy = true
  · simp [hv] at h; exact h
  · simp [hv] at h

lemma getCustomersParams_keys_subset (f : ApiFilters) :
    ∀ x ∈ (getCustomersParams f).map Prod.fst,
      x ∈ ["search", "min_orders", "max_orders", "min_spent", "max_spent",
           "days_since_order", "purchased_gift_card", "sort_by",
           "sort_order", "refresh"] := by
  intro x hx
  unfold getCustomersParams at hx
  simp only [List.map_append, List.mem_append] at hx
  rcases hx with ((((((((h | h) | h) | h) | h) | h) | h) | h) | h) | h <;>
    simp [mem_appendIf_keys h]

/-- Claim C5: for every filters argument passed to the client function
`getCustomers`, the query string it builds contains no `winback` and no
`winback_days` parameter; in particular, even though `App.loadData` places a
truthy `winback` flag (and threshold) into the filter object it passes, the
two fields are never transmitted, so the winback criterion can never be
activated through this client. -/
theorem winback_params_never_sent :
    (∀ f : ApiFilters,
      "winback" ∉ (getCustomersParams f).map Prod.fst ∧
      "winback_days" ∉ (getCustomersParams f).map Prod.fst) ∧
    (∀ (ui : UiFilters) (sortBy sortOrder : String) (forceRefresh : Bool),
      ui.winback.truthy = true →
        (loadDataApiFilters ui sortBy sortOrder forceRefresh).winback =
          JsValue.str "true") := by
  constructor
  · intro f
    constructor
    · intro h
      have := getCustomersParams_keys_subset f _ h
      simp at this
    · intro h
      have := getCustomersParams_keys_subset f _ h
      simp at this
  · intro ui sortBy sortOrder forceRefresh h
    simp [loadDataApiFilters, h]

/-- Concrete instantiation of `winback_params_never_sent`: the filter state
produced by clicking the "Winback (gap ≥ 60 days)" quick filter does set the
flag, and still no winback parameter reaches the query string. -/
theorem winback_params_witness :
    ("winback" ∉ (getCustomersParams
        (loadDataApiFilters
          ⟨.str "", .str "", .str "", .str "", .str "", .str "",
           .bool true, .num 60, .bool false⟩
          "last_order_date" "desc" false)).map Prod.fst) ∧
    (loadDataApiFilters
        ⟨.str "", .str "", .str "", .str "", .str "", .str "",
         .bool true, .num 60, .bool false⟩
        "last_order_date" "desc" false).winback = JsValue.str "true" := by
  constructor
  · exact (winback_params_never_sent.1 _).1
  · exact winback_params_never_sent.2
      ⟨.str "", .str "", .str "", .str "", .str "", .str "",
       .bool true, .num 60, .bool false⟩
      "last_order_date" "desc" false (by decide)

/-- A display-shaped customer record as consumed by the frontend. -/
structure DisplayCustomer where
  id : Nat
  first_name : String
  last_name : String
  email : String
  order_count : Nat
  total_spent : Rat
  last_order_date : Option Int
  customer_since : Option Int
deriving DecidableEq

/-- The wizard step of `App.js` (`'select' | 'template' | 'preview'`). -/
inductive Step where
  | select | template | preview
deriving DecidableEq

/-- The parsed payload of a successful `getCustomers` call as stored by
`App.loadData`: the customer list and the `cache_info` object (modelled as
the field-name/value association list the client builds). -/
structure CustomersPayload where
  customers : List DisplayCustomer
  cache_info : List (String × JsValue)
deriving DecidableEq

/-- The React state of the `App` component: one field per `useState` hook
declared at the top of `frontend/src/App.js`. -/
structure AppState where
  customers : List DisplayCustomer
  filteredCustomers : List DisplayCustomer
  selectedCustomers : List Nat
  templates : List String
  selectedTemplate : Option String
  loading : Bool
  error : Option String
  step : Step
  filters : UiFilters
  sortBy : String
  sortOrder : String
  successMessage : String
  cacheInfo : Option (List (String × JsValue))
deriving DecidableEq

/-- The initial filter object of `App.js`
(`useState({orderCount:'', …, winback:false, winbackDays:60, …})`). -/
def initialFilters : UiFilters :=
  ⟨.str "", .str "", .str "", .str "", .str "", .str "",
   .bool false, .num 60, .bool false⟩

/-- The initial `App` state: all the `useState` initial values. -/
def initialAppState : AppState where
  customers := []
  filteredCustomers := []
  selectedCustomers := []
  templates := []
  selectedTemplate := none
  loading := true
  error := none
  step := .select
  filters := initialFilters
  sortBy := "last_order_date"
  sortOrder := "desc"
  successMessage := ""
  cacheInfo := none

/-- The state-updating events of `App.js`: every call site of a `useState`
setter in the component, one constructor per distinct update. -/
inductive AppEvent where
  | loadStart
  | loadSuccess (resp : CustomersPayload) (templatesData : List String)
  | loadFailure (msg : String)
  | selectCustomer (id : Nat)
  | selectAll
  | nextStep
  | backStep
  | draftsStart
  | draftsSuccess (created : Nat)
  | draftsFailure (msg : String)
  | draftsReset
  | dismissError
  | setFilters (f : UiFilters)
  | setSortBy (s : String)
  | setSortOrder (s : String)
  | selectTemplate (t : String)

/-- One state update of the `App` component.  Each branch mirrors the body
of the corresponding handler in `frontend/src/App.js`; note that no branch
ever writes `filteredCustomers` (there is no `setFilteredCustomers` call
anywhere in the component). -/
def appStep (s : AppState) : AppEvent → AppState
  | .loadStart => { s with loading := true }
  | .loadSuccess resp templatesData =>
      { s with
        cacheInfo := some resp.cache_info
        customers := resp.customers
        templates := if s.templates.isEmpty then templatesData else s.templates
        error := none
        loading := false }
  | .loadFailure msg =>
      { s with error := some ("Failed to load data: " ++ msg), loading := false }
  | .selectCustomer id =>
      { s with
        selectedCustomers :=
          if id ∈ s.selectedCustomers then
            s.selectedCustomers.filter (fun x => x ≠ id)
          else
            s.selectedCustomers ++ [id] }
  | .selectAll =>
      { s with
        selectedCustomers :=
          if s.selectedCustomers.length = s.filteredCustomers.length then []
          else s.filteredCustomers.map (·.id) }
  | .nextStep =>
      if s.step = .select ∧ s.selectedCustomers.length > 0 then
        { s with step := .template }
      else if s.step = .template ∧ s.selectedTemplate.isSome then
        { s with step := .preview }
      else s
  | .backStep =>
      if s.step = .template then { s with step := .select }
      else if s.step = .preview then { s with step := .template }
      else s
  | .draftsStart => { s with loading := true }
  | .draftsSuccess created =>
      { s with
        successMessage :=
          "Successfully created " ++ toString created ++ " draft emails in Gmail!"
        loading := false }
  | .draftsFailure msg =>
      { s with error := some ("Failed to create drafts: " ++ msg), loading := false }
  | .draftsReset =>
      { s with
        selectedCustomers := []
        selectedTemplate := none
        step := .select
        successMessage := "" }
  | .dismissError => { s with error := none }
  | .setFilters f => { s with filters := f }
  | .setSortBy sb => { s with sortBy := sb }
  | .setSortOrder so => { s with sortOrder := so }
  | .selectTemplate t => { s with selectedTemplate := some t }

/-- The states the `App` component can actually be in: the initial state and
everything reachable from it through the component's own state updates. -/
inductive ReachableApp : AppState → Prop where
  | init : ReachableApp initialAppState
  | step {s : AppState} (e : AppEvent) :
      ReachableApp s → ReachableApp (appStep s e)

/-- The customer list handed to the `CustomerList` component on the select
step (`<CustomerList customers={filteredCustomers} …/>`). -/
def selectScreenCustomers (s : AppState) : List DisplayCustomer :=
  s.filteredCustomers

lemma appStep_filteredCustomers (s : AppState) (e : AppEvent) :
    (appStep s e).filteredCustomers = s.filteredCustomers := by
  cases e <;> simp only [appStep] <;> (try split) <;> (try split) <;> rfl

/-- Claim C10: in every reachable state of the `App` component the
`filteredCustomers` state is the empty list (it is initialised to `[]` and
no code path updates it), so the customer-selection screen always renders an
empty customer table and the Select All handler always ends up with an empty
selection. -/
theorem filtered_customers_always_empty :
    ∀ s : AppState, ReachableApp s →
      s.filteredCustomers = [] ∧
      selectScreenCustomers s = [] ∧
      (appStep s .selectAll).selectedCustomers = [] := by
  intro s h
  have hfc : s.filteredCustomers = [] := by
    induction h with
    | init => rfl
    | step e _ ih => rw [appStep_filteredCustomers]; exact ih
  refine ⟨hfc, hfc, ?_⟩
  simp only [appStep, hfc]
  by_cases hsel : s.selectedCustomers.length = 0
  · simp [hsel]
  · simp [hsel]

/-- Concrete instantiation of `filtered_customers_always_empty`: after the
first successful load (which stores a non-empty customer list in
`customers`), the select screen still shows no customers and Select All
still selects nothing. -/
theorem filtered_customers_witness :
    (appStep initialAppState
        (.loadSuccess
          ⟨[⟨1, "Ada", "Lovelace", "ada@example.com", 3, 120, some 0, some 0⟩],
           [("from_cache", .bool false)]⟩
          ["comeback"])).filteredCustomers = [] ∧
    selectScreenCustomers
        (appStep initialAppState
          (.loadSuccess
            ⟨[⟨1, "Ada", "Lovelace", "ada@example.com", 3, 120, some 0, some 0⟩],
             [("from_cache", .bool false)]⟩
            ["comeback"])) = [] := by
  have h :=
    filtered_customers_always_empty
      (appStep initialAppState
        (.loadSuccess
          ⟨[⟨1, "Ada", "Lovelace", "ada@example.com", 3, 120, some 0, some 0⟩],
           [("from_cache", .bool false)]⟩
          ["comeback"]))
      (ReachableApp.step _ ReachableApp.init)
  exact ⟨h.1, h.2.1⟩

/-- Milliseconds per day, the `1000 * 60 * 60 * 24` of
`CustomerList.js getDaysSinceLastOrder`. -/
def msPerDay : Nat := 86400000

/-- From `frontend/src/components/CustomerList.js`, lines 26-33
(`getDaysSinceLastOrder`): `null` dates give `null`; otherwise
`Math.ceil(Math.abs(today - lastOrder) / 86400000)`.  Timestamps are in
milliseconds; the ceiling of a non-negative integer division `a / b` is
computed as `(a + (b - 1)) / b`. -/
def getDaysSinceLastOrder (now : Int) : Option Int → Option Nat
  | none => none
  | some t => some (((now - t).natAbs + (msPerDay - 1)) / msPerDay)

/-- The ceiling of the integer division `x / b` for positive `b`, written
with Euclidean division as `(x + b - 1) / b`; used to state the spec's
`ceil((now - last_order_date) / 1 day)` formula. -/
def ceilDivInt (x b : Int) : Int :=
  (x + b - 1) / b

/-- `ceilDivInt x msPerDay` really is the ceiling of `x / msPerDay`: it is
the unique integer `c` with `msPerDay * (c - 1) < x ≤ msPerDay * c`. -/
lemma ceilDivInt_is_ceil (x : Int) :
    msPerDay * (ceilDivInt x msPerDay - 1) < x ∧
    x ≤ msPerDay * ceilDivInt x msPerDay := by
  unfold ceilDivInt msPerDay
  omega

/-- The spec's days-since-last-order formula,
`ceil((now - last_order_date) / 1 day)`, as a signed integer. -/
def specDaysSince (now t : Int) : Int :=
  ceilDivInt (now - t) msPerDay

/-- Modelled from the spec: the FilterEngine inactivity predicate of the
missing `backend/app.py` — "compute `ceil((now - last_order_date) / 1 day)`;
customers with no orders never match an inactivity-based predicate"; a
customer with a days-since value matches a threshold `θ` when the value is
at least `θ` (spec test: 95 days ago, threshold 90, matches).  The
days-since value itself is the one the frontend helper computes. -/
def inactivityMatches (now : Int) (threshold : Nat)
    (lastOrder : Option Int) : Bool :=
  match getDaysSinceLastOrder now lastOrder with
  | none => false
  | some d => threshold ≤ d

/-- Counterexample to claim C3 as stated: for a last-order timestamp one day
in the future (now = 0, last = 86400000 ms), the code computes
`ceil(|now - last| / 1 day) = 1`, while the claimed formula
`ceil((now - last) / 1 day)` gives `-1`. -/
theorem days_since_future_order_mismatch :
    getDaysSinceLastOrder 0 (some 86400000) = some 1 ∧
    specDaysSince 0 86400000 = -1 ∧
    ((1 : Int) ≠ -1) := by
  refine ⟨?_, ?_, by decide⟩
  · rfl
  · rfl

/-- Claim C3, amended: the days-since-last-order value is computed as
`ceil(|now - last_order_date| / 1 day)` — which agrees with the claimed
`ceil((now - last_order_date) / 1 day)` whenever the last order does not lie
in the future — and a customer with no orders (null `last_order_date`) never
matches an inactivity-based predicate, for any threshold. -/
theorem days_since_and_inactivity :
    ∀ (now t : Int) (threshold : Nat),
      getDaysSinceLastOrder now none = none ∧
      inactivityMatches now threshold none = false ∧
      (∀ d, getDaysSinceLastOrder now (some t) = some d →
        (d : Int) = ceilDivInt ((now - t).natAbs) msPerDay) ∧
      (t ≤ now →
        ∀ d, getDaysSinceLastOrder now (some t) = some d →
          (d : Int) = specDaysSince now t) := by
  intro now t threshold
  refine ⟨rfl, rfl, ?_, ?_⟩
  · intro d hd
    simp only [getDaysSinceLastOrder, Option.some.injEq] at hd
    subst hd
    unfold ceilDivInt msPerDay
    omega
  · intro hle d hd
    simp only [getDaysSinceLastOrder, Option.some.injEq] at hd
    subst hd
    unfold specDaysSince ceilDivInt msPerDay
    omega

/-- Concrete instantiation of `days_since_and_inactivity`, following the
spec's own test vector: a last order 95 days in the past gives a days-since
value of 95, matching threshold 90, while a customer with no orders matches
no threshold. -/
theorem days_since_inactivity_witness :
    getDaysSinceLastOrder 8208000000 (some 0) = some 95 ∧
    ((95 : Int) = specDaysSince 8208000000 0) ∧
    inactivityMatches 8208000000 90 (some 0) = true ∧
    inactivityMatches 8208000000 90 none = false := by
  refine ⟨by rfl, ?_, by rfl, ?_⟩
  · exact (days_since_and_inactivity 8208000000 0 90).2.2.2 (by decide) 95 (by rfl)
  · exact (days_since_and_inactivity 8208000000 0 90).2.1

/-- Modelled from the spec: the winback-gap scan of the FilterEngine in the
missing `backend/app.py` — walk the customer's ascending order timestamps
(in days) and report whether some adjacent pair is at least `n` days apart.
Lists with fewer than two elements report `false`. -/
def hasWinbackGap (n : Int) : List Int → Bool
  | t1 :: t2 :: rest => (decide (n ≤ t2 - t1)) || hasWinbackGap n (t2 :: rest)
  | _ => false

/-- Modelled from the spec: the winback criterion of the FilterEngine —
enabled via a flag plus threshold; a disabled criterion is always satisfied
(absent criteria are no-ops), an enabled one requires a gap. -/
def winbackMatches (enabled : Bool) (n : Int) (orderTimestamps : List Int) :
    Bool :=
  if enabled then hasWinbackGap n orderTimestamps else true

lemma hasWinbackGap_iff (n : Int) :
    ∀ ts : List Int,
      hasWinbackGap n ts = true ↔
        ∃ i, ∃ h : i + 1 < ts.length,
          n ≤ ts.get ⟨i + 1, h⟩ - ts.get ⟨i, Nat.lt_of_succ_lt h⟩
  | [] => by simp [hasWinbackGap]
  | [t] => by
      simp only [hasWinbackGap, List.length_singleton]
      constructor
      · intro h; exact absurd h (by simp)
      · rintro ⟨i, hi, -⟩; omega
  | t1 :: t2 :: rest => by
      rw [hasWinbackGap, Bool.or_eq_true, decide_eq_true_iff,
        hasWinbackGap_iff n (t2 :: rest)]
      constructor
      · rintro (h | ⟨i, hi, hle⟩)
        · exact ⟨0, by simp, by simpa using h⟩
        · refine ⟨i + 1, by simpa using hi, ?_⟩
          simpa using hle
      · rintro ⟨i, hi, hle⟩
        match i with
        | 0 => exact Or.inl (by simpa using hle)
        | j + 1 =>
            refine Or.inr ⟨j, by simpa using hi, ?_⟩
            simpa using hle

/-- Claim C1: with the winback filter enabled at threshold `n` days, a
customer's timestamp list matches if and only if some adjacent pair
`(t[i], t[i+1])` of it satisfies `t[i+1] - t[i] ≥ n`; a customer with fewer
than two orders never matches, whatever the threshold. -/
theorem winback_gap_iff_adjacent_pair :
    ∀ (n : Int) (ts : List Int),
      (winbackMatches true n ts = true ↔
        ∃ i, ∃ h : i + 1 < ts.length,
          n ≤ ts.get ⟨i + 1, h⟩ - ts.get ⟨i, Nat.lt_of_succ_lt h⟩) ∧
      (ts.length < 2 → winbackMatches true n ts = false) := by
  intro n ts
  constructor
  · rw [winbackMatches, if_pos rfl]
    exact hasWinbackGap_iff n ts
  · intro hlen
    rw [winbackMatches, if_pos rfl]
    match ts, hlen with
    | [], _ => rfl
    | [t], _ => rfl

/-- Concrete instantiation of `winback_gap_iff_adjacent_pair`, following the
spec's test vector: orders at day 0 and day 65 match threshold 60 but not
threshold 90, and a single order never matches. -/
theorem winback_gap_witness :
    winbackMatches true 60 [0, 65] = true ∧
    winbackMatches true 90 [0, 65] = false ∧
    winbackMatches true 90 [5] = false := by
  refine ⟨?_, by decide, ?_⟩
  · exact (winback_gap_iff_adjacent_pair 60 [0, 65]).1.mpr
      ⟨0, by decide, by decide⟩
  · exact (winback_gap_iff_adjacent_pair 90 [5]).2 (by decide)

/-- A line item of a raw order; per the spec's data model it carries a
product-category tag used to detect gift-card purchases. -/
structure LineItem where
  category : String
deriving DecidableEq

/-- A raw per-customer order record from the upstream commerce API, per the
spec's data model: order identifier, timestamp, monetary total, line items. -/
structure RawOrder where
  id : Nat
  timestamp : Int
  total : Rat
  line_items : List LineItem
deriving DecidableEq

/-- The aggregated per-customer metrics record of the spec's data model. -/
structure CustomerRecord where
  id : Nat
  first_name : String
  last_name : String
  email : String
  order_count : Nat
  total_spent : Rat
  customer_since : Option Int
  last_order_date : Option Int
  order_timestamps : List Int
  has_gift_card_purchase : Bool
deriving DecidableEq

/-- The gift-card product-category tag. -/
def giftCardCategory : String := "gift_card"

/-- Whether any line item of the order matches the gift-card category. -/
def orderHasGiftCard (o : RawOrder) : Bool :=
  o.line_items.any (fun li => li.category == giftCardCategory)

/-- The spec's order of processing inside the aggregator: by timestamp
ascending, ties broken by order identifier. -/
def orderLe (a b : RawOrder) : Prop :=
  a.timestamp < b.timestamp ∨ (a.timestamp = b.timestamp ∧ a.id ≤ b.id)

instance : DecidableRel orderLe := fun a b => by
  unfold orderLe; exact inferInstance

instance : IsTotal RawOrder orderLe :=
  ⟨by intro a b; unfold orderLe; omega⟩

instance : IsTrans RawOrder orderLe :=
  ⟨by intro a b c; unfold orderLe; omega⟩

/-- Modelled from the spec: the per-customer fold of the CustomerAggregator
in the missing `backend/app.py` — sort the customer's orders by timestamp
ascending (stable, ties broken by order identifier), then compute count,
sum, earliest/latest timestamp, the ascending timestamp sequence, and the
cross-order gift-card flag. -/
def aggregateCustomer (cid : Nat) (firstName lastName email : String)
    (orders : List RawOrder) : CustomerRecord :=
  let ts := (List.insertionSort orderLe orders).map RawOrder.timestamp
  { id := cid
    first_name := firstName
    last_name := lastName
    email := email
    order_count := orders.length
    total_spent := (orders.map RawOrder.total).sum
    customer_since := ts.head?
    last_order_date := ts.getLast?
    order_timestamps := ts
    has_gift_card_purchase := orders.any orderHasGiftCard }

lemma perm_any_eq {α : Type} (p : α → Bool) {l1 l2 : List α}
    (h : l1.Perm l2) : l1.any p = l2.any p := by
  rw [Bool.eq_iff_iff]
  simp only [List.any_eq_true]
  constructor <;> rintro ⟨x, hx, hp⟩
  · exact ⟨x, h.mem_iff.mp hx, hp⟩
  · exact ⟨x, h.mem_iff.mpr hx, hp⟩

lemma sorted_timestamps_perm_eq {l1 l2 : List RawOrder} (h : l1.Perm l2) :
    (List.insertionSort orderLe l1).map RawOrder.timestamp =
    (List.insertionSort orderLe l2).map RawOrder.timestamp := by
  apply List.eq_of_perm_of_sorted (r := fun x y : Int => x ≤ y)
  · exact ((List.perm_insertionSort orderLe l1).map _).trans
      ((h.map _).trans ((List.perm_insertionSort orderLe l2).symm.map _))
  · exact List.Pairwise.map _
      (fun a b hab => by unfold orderLe at hab; omega)
      (List.sorted_insertionSort orderLe l1)
  · exact List.Pairwise.map _
      (fun a b hab => by unfold orderLe at hab; omega)
      (List.sorted_insertionSort orderLe l2)

/-- Claim C8: aggregation is order-independent — permuting the list of raw
orders given to the per-customer aggregation yields an identical customer
record (same count, sum, earliest/latest timestamps, timestamp sequence,
and gift-card flag). -/
theorem aggregate_perm_invariant :
    ∀ (cid : Nat) (firstName lastName email : String)
      (l1 l2 : List RawOrder),
      l1.Perm l2 →
        aggregateCustomer cid firstName lastName email l1 =
        aggregateCustomer cid firstName lastName email l2 := by
  intro cid firstName lastName email l1 l2 h
  have hts := sorted_timestamps_perm_eq h
  simp only [aggregateCustomer, CustomerRecord.mk.injEq]
  exact ⟨trivial, trivial, trivial, trivial, h.length_eq,
    (h.map RawOrder.total).sum_eq,
    by rw [hts], by rw [hts], hts, perm_any_eq orderHasGiftCard h⟩

/-- Concrete instantiation of `aggregate_perm_invariant`: two orders fed in
either order produce the same aggregated record. -/
theorem aggregate_perm_witness :
    aggregateCustomer 7 "Ada" "Lovelace" "ada@example.com"
      [⟨2, 50, 40, [⟨"gift_card"⟩]⟩, ⟨1, 10, 25, [⟨"pasta"⟩]⟩] =
    aggregateCustomer 7 "Ada" "Lovelace" "ada@example.com"
      [⟨1, 10, 25, [⟨"pasta"⟩]⟩, ⟨2, 50, 40, [⟨"gift_card"⟩]⟩] :=
  aggregate_perm_invariant 7 "Ada" "Lovelace" "ada@example.com" _ _
    (List.Perm.swap _ _ _)

/-- Modelled from the spec: one numeric-range criterion of the FilterEngine
in the missing `backend/app.py` — inclusive bounds, each bound a no-op when
absent (an unparseable or negative input has already degraded to `none` per
the spec's defensive-parsing rule). -/
def rangeMatches (minBound maxBound : Option Rat) (v : Rat) : Bool :=
  (match minBound with
   | none => true
   | some m => decide (m ≤ v)) &&
  (match maxBound with
   | none => true
   | some m => decide (v ≤ m))

/-- Modelled from the spec: the FilterEngine applying a numeric-range
criterion (order count or total spent, selected by `value`) to a record
set. -/
def filterByRange (value : CustomerRecord → Rat)
    (minBound maxBound : Option Rat) (records : List CustomerRecord) :
    List CustomerRecord :=
  records.filter (fun r => rangeMatches minBound maxBound (value r))

/-- Claim C9: for every record set and numeric criterion, supplying both a
min and a max bound with min > max makes the filter return the empty set;
the filter is a total function, so no error is raised. -/
theorem range_min_gt_max_empty :
    ∀ (value : CustomerRecord → Rat) (minV maxV : Rat)
      (records : List CustomerRecord),
      maxV < minV →
        filterByRange value (some minV) (some maxV) records = [] := by
  intro value minV maxV records hlt
  unfold filterByRange
  rw [List.filter_eq_nil_iff]
  intro r _
  simp only [rangeMatches, Bool.and_eq_true, decide_eq_true_iff, not_and]
  intro hmin hmax
  exact absurd (le_trans hmin hmax) (not_le.mpr hlt)

/-- Concrete instantiation of `range_min_gt_max_empty`, following the spec's
test vector `min_spent=100, max_spent=50`: a record set with a customer who
spent 75 filters down to the empty set. -/
theorem range_min_gt_max_witness :
    filterByRange CustomerRecord.total_spent (some 100) (some 50)
      [⟨1, "Ada", "Lovelace", "ada@example.com", 2, 75, some 0, some 9,
        [0, 9], false⟩] = [] :=
  range_min_gt_max_empty CustomerRecord.total_spent 100 50 _ (by norm_num)

/-- The selectable sort keys of the Sorter (spec section 4.3; they are also
the options of the Sort By dropdown in `CustomerList.js`). -/
inductive SortKey where
  | last_order_date | order_count | total_spent | customer_since | name
deriving DecidableEq

/-- Sort direction. -/
inductive SortDirection where
  | asc | desc
deriving DecidableEq

/-- Comparison on nullable timestamps with `null` as the smallest value
(spec: records with a null sort field sort as "earliest"/smallest). -/
def optIntLe : Option Int → Option Int → Bool
  | none, _ => true
  | some _, none => false
  | some x, some y => decide (x ≤ y)

/-- The case-insensitive composite name key (last name then first name). -/
def nameKey (c : CustomerRecord) : String × String :=
  (c.last_name.toLower, c.first_name.toLower)

/-- Lexicographic comparison of composite name keys. -/
def nameLe (x y : String × String) : Bool :=
  decide (x.1 < y.1) || (x.1 == y.1 && decide (x.2 ≤ y.2))

/-- Modelled from the spec: the per-key "less or equal" comparison of the
Sorter in the missing `backend/app.py`; null sort fields compare as the
smallest value. -/
def keyLeB : SortKey → CustomerRecord → CustomerRecord → Bool
  | .last_order_date, a, b => optIntLe a.last_order_date b.last_order_date
  | .order_count, a, b => decide (a.order_count ≤ b.order_count)
  | .total_spent, a, b => decide (a.total_spent ≤ b.total_spent)
  | .customer_since, a, b => optIntLe a.customer_since b.customer_since
  | .name, a, b => nameLe (nameKey a) (nameKey b)

/-- Modelled from the spec: the Sorter — stable sort by the selected key;
a descending request flips the comparison (null still compares smallest). -/
def sortCustomers (k : SortKey) (d : SortDirection)
    (records : List CustomerRecord) : List CustomerRecord :=
  match d with
  | .asc => List.insertionSort (fun a b => keyLeB k a b = true) records
  | .desc => List.insertionSort (fun a b => keyLeB k b a = true) records

/-- Whether the record's value for the sort key is null. -/
def isNullKey : SortKey → CustomerRecord → Bool
  | .last_order_date, c => c.last_order_date.isNone
  | .customer_since, c => c.customer_since.isNone
  | _, _ => false

lemma optIntLe_total (x y : Option Int) :
    optIntLe x y = true ∨ optIntLe y x = true := by
  cases x <;> cases y <;> simp [optIntLe]
  omega

lemma optIntLe_trans {x y z : Option Int} (h1 : optIntLe x y = true)
    (h2 : optIntLe y z = true) : optIntLe x z = true := by
  cases x <;> cases y <;> cases z <;> simp_all [optIntLe]
  omega

lemma nameLe_total (x y : String × String) :
    nameLe x y = true ∨ nameLe y x = true := by
  unfold nameLe
  simp only [Bool.or_eq_true, decide_eq_true_iff, Bool.and_eq_true,
    beq_iff_eq]
  rcases lt_trichotomy x.1 y.1 with h | h | h
  · exact Or.inl (Or.inl h)
  · rcases le_total x.2 y.2 with h2 | h2
    · exact Or.inl (Or.inr ⟨h, h2⟩)
    · exact Or.inr (Or.inr ⟨h.symm, h2⟩)
  · exact Or.inr (Or.inl h)

lemma nameLe_trans {x y z : String × String} (h1 : nameLe x y = true)
    (h2 : nameLe y z = true) : nameLe x z = true := by
  unfold nameLe at h1 h2 ⊢
  simp only [Bool.or_eq_true, decide_eq_true_iff, Bool.and_eq_true,
    beq_iff_eq] at h1 h2 ⊢
  rcases h1 with h1 | ⟨he1, hl1⟩
  · rcases h2 with h2 | ⟨he2, hl2⟩
    · exact Or.inl (lt_trans h1 h2)
    · exact Or.inl (he2 ▸ h1)
  · rcases h2 with h2 | ⟨he2, hl2⟩
    · exact Or.inl (he1 ▸ h2)
    · exact Or.inr ⟨he1.trans he2, le_trans hl1 hl2⟩

lemma keyLeB_total (k : SortKey) (a b : CustomerRecord) :
    keyLeB k a b = true ∨ keyLeB k b a = true := by
  cases k <;> simp only [keyLeB]
  · exact optIntLe_total _ _
  · simp only [decide_eq_true_iff]; omega
  · simp only [decide_eq_true_iff]; exact le_total _ _
  · exact optIntLe_total _ _
  · exact nameLe_total _ _

lemma keyLeB_trans (k : SortKey) {a b c : CustomerRecord}
    (h1 : keyLeB k a b = true) (h2 : keyLeB k b c = true) :
    keyLeB k a c = true := by
  cases k <;> simp only [keyLeB] at h1 h2 ⊢
  · exact optIntLe_trans h1 h2
  · simp only [decide_eq_true_iff] at h1 h2 ⊢; omega
  · simp only [decide_eq_true_iff] at h1 h2 ⊢; exact le_trans h1 h2
  · exact optIntLe_trans h1 h2
  · exact nameLe_trans h1 h2

lemma optIntLe_none_right {x : Option Int} (h : optIntLe x none = true) :
    x = none := by
  cases x
  · rfl
  · simp [optIntLe] at h

lemma keyLeB_null_smallest (k : SortKey) (a b : CustomerRecord)
    (ha : isNullKey k a = true) : keyLeB k a b = true := by
  cases k <;> simp only [isNullKey, keyLeB] at ha ⊢
  · rw [Option.isNone_iff_eq_none] at ha; rw [ha]; rfl
  · simp at ha
  · simp at ha
  · rw [Option.isNone_iff_eq_none] at ha; rw [ha]; rfl
  · simp at ha

lemma keyLeB_null_mono (k : SortKey) {a b : CustomerRecord}
    (hab : keyLeB k a b = true) (hb : isNullKey k b = true) :
    isNullKey k a = true := by
  cases k <;> simp only [isNullKey, keyLeB] at hab hb ⊢
  · rw [Option.isNone_iff_eq_none] at hb ⊢
    rw [hb] at hab
    exact optIntLe_none_right hab
  · exact hb
  · exact hb
  · rw [Option.isNone_iff_eq_none] at hb ⊢
    rw [hb] at hab
    exact optIntLe_none_right hab
  · exact hb

/-- Claim C6: for every record list and sort key, null sort-key values are
treated as the smallest value in both directions, so null-valued records
cluster contiguously at the "ascending-order start" end: they all precede
the non-null records in an ascending request and all follow them in a
descending request.  (Interpreting the claim's "ascending-order start" as
the end of the output holding the smallest values; in a descending request
that end is the back of the returned sequence.) -/
theorem sort_null_clustering :
    ∀ (k : SortKey) (records : List CustomerRecord),
      (sortCustomers k .asc records).Pairwise
        (fun a b => isNullKey k b = true → isNullKey k a = true) ∧
      (sortCustomers k .desc records).Pairwise
        (fun a b => isNullKey k a = true → isNullKey k b = true) ∧
      (∀ a b, isNullKey k a = true → keyLeB k a b = true) := by
  intro k records
  refine ⟨?_, ?_, keyLeB_null_smallest k⟩
  · haveI : IsTotal CustomerRecord (fun a b => keyLeB k a b = true) :=
      ⟨fun a b => keyLeB_total k a b⟩
    haveI : IsTrans CustomerRecord (fun a b => keyLeB k a b = true) :=
      ⟨fun _ _ _ h1 h2 => keyLeB_trans k h1 h2⟩
    have hs := List.sorted_insertionSort
      (fun a b : CustomerRecord => keyLeB k a b = true) records
    exact hs.imp (fun hab hb => keyLeB_null_mono k hab hb)
  · haveI : IsTotal CustomerRecord (fun a b => keyLeB k b a = true) :=
      ⟨fun a b => (keyLeB_total k b a)⟩
    haveI : IsTrans CustomerRecord (fun a b => keyLeB k b a = true) :=
      ⟨fun _ _ _ h1 h2 => keyLeB_trans k h2 h1⟩
    have hs := List.sorted_insertionSort
      (fun a b : CustomerRecord => keyLeB k b a = true) records
    exact hs.imp (fun hab ha => keyLeB_null_mono k hab ha)

/-- Concrete instantiation of `sort_null_clustering`: a record with no last
order compares as smaller than one with a last order, under the
last-order-date key. -/
theorem sort_null_clustering_witness :
    keyLeB .last_order_date
      ⟨1, "No", "Orders", "no@example.com", 0, 0, none, none, [], false⟩
      ⟨2, "Ada", "Lovelace", "ada@example.com", 3, 120, some 0, some 9,
        [0, 5, 9], false⟩ = true :=
  (sort_null_clustering .last_order_date []).2.2
    ⟨1, "No", "Orders", "no@example.com", 0, 0, none, none, [], false⟩
    ⟨2, "Ada", "Lovelace", "ada@example.com", 3, 120, some 0, some 9,
      [0, 5, 9], false⟩
    (by decide)

/-- The process-wide cache entry of the spec's data model: the last
aggregated full customer set plus the completion timestamp (seconds). -/
structure CacheEntry where
  data : List CustomerRecord
  fetchedAt : Int
deriving DecidableEq

/-- The cache metadata of the spec's `queryCustomers` contract. -/
structure CacheMeta where
  from_cache : Bool
  cache_age_seconds : Int
  cache_ttl_seconds : Int
  total_customers : Int
deriving DecidableEq

/-- Outcome of running the fetch+aggregate pipeline once: the aggregated
set, or one of the spec's two error kinds. -/
inductive FetchOutcome where
  | ok (data : List CustomerRecord)
  | fetchError (msg : String)
  | aggregationError (msg : String)
deriving DecidableEq

/-- Modelled from the spec: the refresh path of the CacheLayer in the
missing `backend/app.py` — run the pipeline; on success replace the entry
wholesale and report fresh metadata; on `FetchError` or `AggregationError`
leave the entry unchanged and surface the error to the caller. -/
def cacheRefresh (ttl now : Int) (fetch : FetchOutcome)
    (entry : Option CacheEntry) :
    Option CacheEntry × Except String (List CustomerRecord × CacheMeta) :=
  match fetch with
  | .ok data => (some ⟨data, now⟩, .ok (data, ⟨false, 0, ttl, data.length⟩))
  | .fetchError msg => (entry, .error msg)
  | .aggregationError msg => (entry, .error msg)

/-- Modelled from the spec: the CacheLayer `getCustomers(forceRefresh)`
state machine of the missing `backend/app.py` — Empty: aggregate and
populate; Fresh (age < TTL, no force): serve from the entry with
`from_cache = true` and the age in seconds; Stale (age ≥ TTL) or force:
re-run the pipeline via `cacheRefresh`.  `fetch` stands for what the
pipeline would produce if run now; the injectable clock is `now`. -/
def cacheQuery (ttl now : Int) (forceRefresh : Bool) (fetch : FetchOutcome)
    (entry : Option CacheEntry) :
    Option CacheEntry × Except String (List CustomerRecord × CacheMeta) :=
  match entry with
  | none => cacheRefresh ttl now fetch none
  | some e =>
      if forceRefresh = true ∨ ttl ≤ now - e.fetchedAt then
        cacheRefresh ttl now fetch (some e)
      else
        (some e, .ok (e.data, ⟨true, now - e.fetchedAt, ttl, e.data.length⟩))

/-- Claim C4: the cache state machine — the first query on an empty cache
aggregates and reports `from_cache = false`; later calls within the TTL are
served from the cache with `from_cache = true` and a cache age that
increases between calls; and a `forceRefresh = true` call re-aggregates
regardless of cache age or state, reporting `from_cache = false`. -/
theorem cache_state_machine :
    ∀ (ttl t0 t1 t2 : Int) (data : List CustomerRecord)
      (fetch : FetchOutcome),
      t0 ≤ t1 → t1 < t2 → t2 - t0 < ttl →
      (cacheQuery ttl t0 false (.ok data) none =
        (some ⟨data, t0⟩, .ok (data, ⟨false, 0, ttl, data.length⟩))) ∧
      (cacheQuery ttl t1 false fetch (some ⟨data, t0⟩) =
        (some ⟨data, t0⟩,
          .ok (data, ⟨true, t1 - t0, ttl, data.length⟩))) ∧
      (cacheQuery ttl t2 false fetch (some ⟨data, t0⟩) =
        (some ⟨data, t0⟩,
          .ok (data, ⟨true, t2 - t0, ttl, data.length⟩))) ∧
      (t1 - t0 < t2 - t0) ∧
      (∀ (t : Int) (entry : Option CacheEntry)
        (freshData : List CustomerRecord),
        cacheQuery ttl t true (.ok freshData) entry =
          (some ⟨freshData, t⟩,
            .ok (freshData, ⟨false, 0, ttl, freshData.length⟩))) := by
  intro ttl t0 t1 t2 data fetch h01 h12 h2
  refine ⟨rfl, ?_, ?_, by omega, ?_⟩
  · rw [cacheQuery, if_neg (by simp; omega)]
  · rw [cacheQuery, if_neg (by simp; omega)]
  · intro t entry freshData
    match entry with
    | none => rfl
    | some e => rw [cacheQuery, if_pos (Or.inl rfl)]; rfl

/-- Concrete instantiation of `cache_state_machine` with a 300-second TTL
and calls at seconds 0, 10 and 20. -/
theorem cache_state_machine_witness :
    (cacheQuery 300 0 false (.ok []) none =
      (some ⟨[], 0⟩, .ok ([], ⟨false, 0, 300, 0⟩))) ∧
    (cacheQuery 300 10 false (.ok []) (some ⟨[], 0⟩) =
      (some ⟨[], 0⟩, .ok ([], ⟨true, 10, 300, 0⟩))) ∧
    (cacheQuery 300 20 false (.ok []) (some ⟨[], 0⟩) =
      (some ⟨[], 0⟩, .ok ([], ⟨true, 20, 300, 0⟩))) ∧
    (cacheQuery 300 20 true (.ok []) (some ⟨[], 0⟩) =
      (some ⟨[], 20⟩, .ok ([], ⟨false, 0, 300, 0⟩))) := by
  have h := cache_state_machine 300 0 10 20 [] (.ok [])
    (by decide) (by decide) (by decide)
  exact ⟨h.1, h.2.1, h.2.2.1, h.2.2.2.2 20 (some ⟨[], 0⟩) []⟩

/-- Claim C7: refresh failure atomicity — when a triggered refresh's fetch
or aggregation fails (`FetchError` or `AggregationError`), the existing
cache entry is left unchanged, the error is surfaced only in the result
handed to the caller that triggered that refresh, and the old data remains
servable to later within-TTL calls. -/
theorem refresh_failure_atomic :
    ∀ (ttl now later : Int) (e : CacheEntry) (msg : String)
      (fetch : FetchOutcome),
      (cacheQuery ttl now true (.fetchError msg) (some e) =
        (some e, .error msg)) ∧
      (cacheQuery ttl now true (.aggregationError msg) (some e) =
        (some e, .error msg)) ∧
      (ttl ≤ now - e.fetchedAt →
        cacheQuery ttl now false (.fetchError msg) (some e) =
          (some e, .error msg)) ∧
      (ttl ≤ now - e.fetchedAt →
        cacheQuery ttl now false (.aggregationError msg) (some e) =
          (some e, .error msg)) ∧
      (later - e.fetchedAt < ttl →
        cacheQuery ttl later false fetch (some e) =
          (some e,
            .ok (e.data,
              ⟨true, later - e.fetchedAt, ttl, e.data.length⟩))) := by
  intro ttl now later e msg fetch
  refine ⟨?_, ?_, ?_, ?_, ?_⟩
  · rw [cacheQuery, if_pos (Or.inl rfl)]; rfl
  · rw [cacheQuery, if_pos (Or.inl rfl)]; rfl
  · intro h; rw [cacheQuery, if_pos (Or.inr h)]; rfl
  · intro h; rw [cacheQuery, if_pos (Or.inr h)]; rfl
  · intro h; rw [cacheQuery, if_neg (by simp; omega)]

/-- Concrete instantiation of `refresh_failure_atomic`: a failed forced
refresh at second 50 leaves the entry from second 0 in place, and a cached
read at second 60 still serves the old data. -/
theorem refresh_failure_witness :
    (cacheQuery 300 50 true (.fetchError "upstream unreachable")
        (some ⟨[], 0⟩) = (some ⟨[], 0⟩, .error "upstream unreachable")) ∧
    (cacheQuery 300 60 false (.ok []) (some ⟨[], 0⟩) =
      (some ⟨[], 0⟩, .ok ([], ⟨true, 60, 300, 0⟩))) := by
  have h := refresh_failure_atomic 300 50 60 ⟨[], 0⟩
    "upstream unreachable" (.ok [])
  exact ⟨h.1, h.2.2.2.2 (by decide)⟩

/-- JavaScript `x || dflt` on a possibly-missing string (used for
`data.error || 'Failed to fetch customers'` in `api.js`). -/
def jsOrDefault (v : Option String) (dflt : String) : String :=
  match v with
  | none => dflt
  | some s => if s == "" then dflt else s

/-- The parsed JSON body returned by `GET /api/customers`, with the fields
`api.js getCustomers` reads from it. -/
structure ServerResponse where
  success : Bool
  error : Option String
  customers : List DisplayCustomer
  from_cache : Bool
  cache_age : Int
  cache_ttl : Int
  total_customers : Int
deriving DecidableEq

/-- The `cache_info` object literal built by `getCustomers`
(`frontend/src/services/api.js`, lines 28-37), modelled as the ordered
field-name/value list of the JavaScript object. -/
def cacheInfoObject (d : ServerResponse) : List (String × JsValue) :=
  [("from_cache", .bool d.from_cache),
   ("cache_age", .num d.cache_age),
   ("cache_ttl", .num d.cache_ttl),
   ("total_customers", .num d.total_customers)]

/-- The result of `getCustomers` once the response body is parsed: the
thrown error on `!data.success`, otherwise the
`{ customers, cache_info }` value (`api.js`, lines 24-37). -/
def getCustomersResult (d : ServerResponse) :
    Except String (List DisplayCustomer × List (String × JsValue)) :=
  if d.success = true then .ok (d.customers, cacheInfoObject d)
  else .error (jsOrDefault d.error "Failed to fetch customers")

/-- Counterexample to claim C2 as stated: on a concrete successful call the
returned `cache_info` object has no `cache_age_seconds` and no
`cache_ttl_seconds` field — the age and TTL fields are named `cache_age`
and `cache_ttl`. -/
theorem cache_info_seconds_fields_absent :
    (getCustomersResult ⟨true, none, [], true, 5, 300, 0⟩ =
      .ok ([], cacheInfoObject ⟨true, none, [], true, 5, 300, 0⟩)) ∧
    (cacheInfoObject ⟨true, none, [], true, 5, 300, 0⟩).lookup
      "cache_age_seconds" = none ∧
    (cacheInfoObject ⟨true, none, [], true, 5, 300, 0⟩).lookup
      "cache_ttl_seconds" = none ∧
    (cacheInfoObject ⟨true, none, [], true, 5, 300, 0⟩).lookup
      "cache_age" = some (.num 5) := by
  exact ⟨rfl, rfl, rfl, rfl⟩

/-- Claim C2, amended: for every successful call, `getCustomers` returns the
customer sequence together with a `cache_info` object whose fields are
exactly `from_cache` (bool), `cache_age` (int, seconds), `cache_ttl` (int,
seconds) and `total_customers` (int), carrying the corresponding response
values. -/
theorem cache_info_fields_on_success :
    ∀ d : ServerResponse, d.success = true →
      getCustomersResult d = .ok (d.customers, cacheInfoObject d) ∧
      (cacheInfoObject d).map Prod.fst =
        ["from_cache", "cache_age", "cache_ttl", "total_customers"] ∧
      (cacheInfoObject d).lookup "from_cache" =
        some (.bool d.from_cache) ∧
      (cacheInfoObject d).lookup "cache_age" = some (.num d.cache_age) ∧
      (cacheInfoObject d).lookup "cache_ttl" = some (.num d.cache_ttl) ∧
      (cacheInfoObject d).lookup "total_customers" =
        some (.num d.total_customers) := by
  intro d h
  exact ⟨by rw [getCustomersResult, if_pos h], rfl, rfl, rfl, rfl, rfl⟩

/-- Concrete instantiation of `cache_info_fields_on_success` on a successful
response with one customer. -/
theorem cache_info_fields_witness :
    getCustomersResult
      ⟨true, none,
       [⟨1, "Ada", "Lovelace", "ada@example.com", 3, 120, some 9, some 0⟩],
       true, 42, 300, 1⟩ =
      .ok ([⟨1, "Ada", "Lovelace", "ada@example.com", 3, 120, some 9,
             some 0⟩],
           [("from_cache", .bool true), ("cache_age", .num 42),
            ("cache_ttl", .num 300), ("total_customers", .num 1)]) :=
  (cache_info_fields_on_success
    ⟨true, none,
     [⟨1, "Ada", "Lovelace", "ada@example.com", 3, 120, some 9, some 0⟩],
     true, 42, 300, 1⟩ rfl).1
